import Mathlib

/-!
Verification of the dgtd lifecycle handoff protocol, a shallow embedding of
`.plan/send_request.py` (function `send_request`) and
`.lifecycle/send_response.py` (function `send_response`).

The filesystem is modelled relative to the project root as a finite map from
paths (lists of path segments) to file contents, together with a set of
existing directories.  The scripts' mutating operations (`shutil.copy2`,
`Path.mkdir(exist_ok=True)`, `Path.unlink`) are recorded as an ordered list of
events, so that both the final state and the order of the mutations can be
reasoned about.  The `strftime('%Y%m%d_%H%M%S')` timestamp is passed as an
explicit string parameter.  `Path.exists()` checks on the staged source files
and on `requirements.md` are read as file existence, and the check on the
lifecycle folder as directory existence, matching the node kinds the protocol
itself creates at those paths.
-/

abbrev FPath := List String

/-- A filesystem rooted at the project root: file contents keyed by path,
plus the set of existing directories. -/
structure FS where
  files : List (FPath × String)
  dirs : List FPath
deriving DecidableEq, Repr

/-- Look up the content of the file at path `p`. -/
def findFile : List (FPath × String) → FPath → Option String
  | [], _ => none
  | e :: rest, p => if e.1 = p then some e.2 else findFile rest p

/-- Remove every entry for path `p`. -/
def eraseFile : List (FPath × String) → FPath → List (FPath × String)
  | [], _ => []
  | e :: rest, p => if e.1 = p then eraseFile rest p else e :: eraseFile rest p

def FS.readFile (fs : FS) (p : FPath) : Option String := findFile fs.files p

def FS.fileExists (fs : FS) (p : FPath) : Bool := (fs.readFile p).isSome

def FS.dirExists (fs : FS) (p : FPath) : Bool := decide (p ∈ fs.dirs)

/-- `shutil.copy2`-style write: the destination now holds content `c`,
overwriting any previous file at that path. -/
def FS.writeFile (fs : FS) (p : FPath) (c : String) : FS :=
  ⟨(p, c) :: eraseFile fs.files p, fs.dirs⟩

/-- `Path.unlink`: the file at `p` is removed. -/
def FS.unlink (fs : FS) (p : FPath) : FS :=
  ⟨eraseFile fs.files p, fs.dirs⟩

/-- `Path.mkdir(exist_ok=True)`: create the directory unless it already
exists. -/
def FS.mkdir (fs : FS) (p : FPath) : FS :=
  if fs.dirExists p then fs else ⟨fs.files, p :: fs.dirs⟩

/-- One primitive filesystem mutation performed by a protocol script. -/
inductive Ev where
  | write (p : FPath) (c : String)
  | mkdir (p : FPath)
  | unlink (p : FPath)
deriving DecidableEq, Repr

/-- The path affected by an event. -/
def Ev.path : Ev → FPath
  | write p _ => p
  | mkdir p => p
  | unlink p => p

def FS.apply (fs : FS) : Ev → FS
  | .write p c => fs.writeFile p c
  | .mkdir p => fs.mkdir p
  | .unlink p => fs.unlink p

def FS.applyAll (fs : FS) (evs : List Ev) : FS := evs.foldl FS.apply fs

/-! ## Protocol constants and path layout

These mirror the path expressions built by `send_request.py` and
`send_response.py` relative to `project_root`. -/

/-- `valid_teams = ['dev', 'test', 'review', 'doc']`. -/
def validTeams : List String := ["dev", "test", "review", "doc"]

/-- `project_root / '.plan' / 'request.md'`, the planner's staged request. -/
def sourceRequestPath : FPath := [".plan", "request.md"]

/-- `project_root / '.plan' / 'response.md'`, the planner's response inbox. -/
def planResponsePath : FPath := [".plan", "response.md"]

/-- `project_root / f'.\x7brole\x7d'`, a team member's directory. -/
def roleDirPath (role : String) : FPath := ["." ++ role]

/-- `.<role>/request.md`, a team member's request inbox. -/
def roleRequestPath (role : String) : FPath := ["." ++ role, "request.md"]

/-- `.<role>/response.md`, a team member's staged response. -/
def roleResponsePath (role : String) : FPath := ["." ++ role, "response.md"]

/-- `project_root / '.lifecycle' / lifecycle_folder`. -/
def lifecycleDirPath (unit : String) : FPath := [".lifecycle", unit]

/-- `.lifecycle/<unit>/requirements.md`. -/
def requirementsPath (unit : String) : FPath :=
  [".lifecycle", unit, "requirements.md"]

/-- Archive file name for a request transfer:
`f'\x7btimestamp\x7d_request_to_\x7brecipient\x7d.md'`. -/
def requestArchiveName (ts role : String) : String :=
  ts ++ "_request_to_" ++ role ++ ".md"

/-- Archive path for a request transfer. -/
def requestArchivePath (unit ts role : String) : FPath :=
  [".lifecycle", unit, requestArchiveName ts role]

/-- Archive file name for a response transfer:
`f'\x7btimestamp\x7d_response_from_\x7bsubmitter\x7d.md'`. -/
def responseArchiveName (ts role : String) : String :=
  ts ++ "_response_from_" ++ role ++ ".md"

/-- Archive path for a response transfer. -/
def responseArchivePath (unit ts role : String) : FPath :=
  [".lifecycle", unit, responseArchiveName ts role]

/-- `f'.lifecycle/\x7blifecycle_folder\x7d/requirements.md'`, the reference
string looked for inside the staged request text. -/
def expectedReference (unit : String) : String :=
  ".lifecycle/" ++ unit ++ "/requirements.md"

/-- Does `needle` match at the very start of `haystack`? -/
def leadMatch : List Char → List Char → Bool
  | [], _ => true
  | _ :: _, [] => false
  | a :: as, b :: bs => a == b && leadMatch as bs

/-- Does `needle` occur contiguously anywhere in `haystack`? -/
def occursIn (needle : List Char) : List Char → Bool
  | [] => leadMatch needle []
  | b :: bs => leadMatch needle (b :: bs) || occursIn needle bs

/-- Python's `needle in haystack` on strings: contiguous substring
containment. -/
def containsSubstr (needle haystack : String) : Bool :=
  occursIn needle.data haystack.data

/-! ## The two transfer operations

Each returns the boolean result of the Python function together with the
ordered list of filesystem mutations it performed.  All validation failures
return `(false, [])`: the scripts mutate nothing before their first copy. -/

/-- `send_request(recipient_team_member, lifecycle_folder)` from
`.plan/send_request.py`, with the strftime timestamp `ts` as a parameter.
The source-file existence check (`source_file.exists()`) and the later
`open(source_file).read()` are merged into one `readFile` match; nothing
between them mutates the filesystem, so the content read is the one whose
existence was checked. -/
def send_request (recipient unit ts : String) (fs : FS) : Bool × List Ev :=
  if recipient ∉ validTeams then (false, [])
  else if unit = "" ∨ '/' ∈ unit.data ∨ '\\' ∈ unit.data then (false, [])
  else
    match fs.readFile sourceRequestPath with
    | none => (false, [])
    | some requestContent =>
      if fs.dirExists (lifecycleDirPath unit) = false then (false, [])
      else if fs.fileExists (requirementsPath unit) = false then (false, [])
      else if containsSubstr (expectedReference unit) requestContent = false then
        (false, [])
      else
        (true,
          [Ev.mkdir (roleDirPath recipient),
           Ev.write (roleRequestPath recipient) requestContent,
           Ev.write (requestArchivePath unit ts recipient) requestContent,
           Ev.unlink sourceRequestPath])

/-- `send_response(submitting_team_member, lifecycle_folder)` from
`.lifecycle/send_response.py`.  The final cleanup step checks
`request_file.exists()` against the state reached after the first three
mutations, exactly as the script does. -/
def send_response (submitter unit ts : String) (fs : FS) : Bool × List Ev :=
  if submitter ∉ validTeams then (false, [])
  else if unit = "" ∨ '/' ∈ unit.data ∨ '\\' ∈ unit.data then (false, [])
  else
    match fs.readFile (roleResponsePath submitter) with
    | none => (false, [])
    | some responseContent =>
      if fs.dirExists (lifecycleDirPath unit) = false then (false, [])
      else
        let baseEvs :=
          [Ev.write planResponsePath responseContent,
           Ev.write (responseArchivePath unit ts submitter) responseContent,
           Ev.unlink (roleResponsePath submitter)]
        if (fs.applyAll baseEvs).fileExists (roleRequestPath submitter) = true then
          (true, baseEvs ++ [Ev.unlink (roleRequestPath submitter)])
        else
          (true, baseEvs)

/-- Result and final filesystem state of a `send_request` invocation. -/
def send_request_run (recipient unit ts : String) (fs : FS) : Bool × FS :=
  ((send_request recipient unit ts fs).1,
   fs.applyAll (send_request recipient unit ts fs).2)

/-- Result and final filesystem state of a `send_response` invocation. -/
def send_response_run (submitter unit ts : String) (fs : FS) : Bool × FS :=
  ((send_response submitter unit ts fs).1,
   fs.applyAll (send_response submitter unit ts fs).2)

/-! ## Containment of paths in the project root

A path (list of segments, interpreted relative to the project root) stays
inside the project root when resolving it never climbs above the root and
ends strictly below it.  Segments containing a path separator would denote
nested paths and are excluded. -/

/-- A single well-formed path segment: non-empty and free of both
separator conventions. -/
def segmentOk (s : String) : Bool :=
  decide (s ≠ "" ∧ '/' ∉ s.data ∧ '\\' ∉ s.data)

/-- Resolve a segment list starting at depth `d` below the project root;
`true` when resolution never climbs above the root and the resolved path is
strictly below the root. -/
def staysInRoot : Nat → List String → Bool
  | d, [] => decide (0 < d)
  | d, s :: rest =>
    segmentOk s &&
      (if s = ".." then
        match d with
        | 0 => false
        | d' + 1 => staysInRoot d' rest
      else if s = "." then staysInRoot d rest
      else staysInRoot (d + 1) rest)

/-- The path lies inside the project root. -/
def pathInRoot (p : FPath) : Bool := staysInRoot 0 p

/-! ## Concrete fixtures for witnesses and counterexamples -/

/-- A timestamp of the shape `strftime('%Y%m%d_%H%M%S')` produces. -/
def tsA : String := "20250101_120000"

/-- A later timestamp. -/
def tsB : String := "20250102_090000"

/-- A staged request text referencing `.lifecycle/demo/requirements.md`. -/
def demoRequestText : String :=
  "please implement per .lifecycle/demo/requirements.md thanks"

/-- A second staged request text for the same unit, with different content. -/
def restagedRequestText : String :=
  "second request, see .lifecycle/demo/requirements.md again"

/-- Workspace ready for `send_request "dev" "demo"`: a staged request and a
`demo` lifecycle folder containing `requirements.md`. -/
def fsReq : FS :=
  ⟨[(sourceRequestPath, demoRequestText),
    ([".lifecycle", "demo", "requirements.md"], "the requirements")],
   [[".lifecycle", "demo"]]⟩

/-- Workspace ready for `send_response "dev" "demo"`: a staged response and a
pending request in `.dev`, and a `demo` lifecycle folder with no
`requirements.md`. -/
def fsResp : FS :=
  ⟨[([".dev", "response.md"], "work is done"),
    ([".dev", "request.md"], demoRequestText)],
   [[".lifecycle", "demo"], [".dev"]]⟩

/-- State after a successful `send_request "dev" "demo"` at `tsA` from
`fsReq`, with a second request then staged externally by the planner. -/
def fsCollide : FS :=
  (send_request_run "dev" "demo" tsA fsReq).2.writeFile sourceRequestPath
    restagedRequestText

/-! ## Basic filesystem lemmas -/

theorem findFile_eraseFile_self (l : List (FPath × String)) (p : FPath) :
    findFile (eraseFile l p) p = none := by
  induction l with
  | nil => rfl
  | cons e rest ih =>
    by_cases h : e.1 = p
    · simp [eraseFile, h, ih]
    · simp [eraseFile, findFile, h, ih]

theorem findFile_eraseFile_ne (l : List (FPath × String)) (p q : FPath)
    (h : q ≠ p) : findFile (eraseFile l p) q = findFile l q := by
  induction l with
  | nil => rfl
  | cons e rest ih =>
    by_cases he : e.1 = p
    · have h2 : p ≠ q := fun hq => h hq.symm
      simp [eraseFile, findFile, he, h2, ih]
    · simp [eraseFile, findFile, he, ih]

theorem FS.readFile_writeFile_self (fs : FS) (p : FPath) (c : String) :
    (fs.writeFile p c).readFile p = some c := by
  simp [readFile, writeFile, findFile]

theorem FS.readFile_writeFile_ne (fs : FS) (p q : FPath) (c : String)
    (h : q ≠ p) : (fs.writeFile p c).readFile q = fs.readFile q := by
  have h2 : p ≠ q := fun hq => h hq.symm
  simp [readFile, writeFile, findFile, h2, findFile_eraseFile_ne _ _ _ h]

theorem FS.readFile_unlink_self (fs : FS) (p : FPath) :
    (fs.unlink p).readFile p = none :=
  findFile_eraseFile_self _ _

theorem FS.readFile_unlink_ne (fs : FS) (p q : FPath) (h : q ≠ p) :
    (fs.unlink p).readFile q = fs.readFile q :=
  findFile_eraseFile_ne _ _ _ h

theorem FS.readFile_mkdir (fs : FS) (p q : FPath) :
    (fs.mkdir p).readFile q = fs.readFile q := by
  unfold mkdir; split <;> rfl

theorem FS.dirExists_writeFile (fs : FS) (p q : FPath) (c : String) :
    (fs.writeFile p c).dirExists q = fs.dirExists q := rfl

theorem FS.dirExists_unlink (fs : FS) (p q : FPath) :
    (fs.unlink p).dirExists q = fs.dirExists q := rfl

theorem FS.dirExists_mkdir_self (fs : FS) (p : FPath) :
    (fs.mkdir p).dirExists p = true := by
  unfold mkdir; split
  · assumption
  · simp [dirExists]

theorem FS.dirExists_mkdir_ne (fs : FS) (p q : FPath) (h : q ≠ p) :
    (fs.mkdir p).dirExists q = fs.dirExists q := by
  unfold mkdir; split
  · rfl
  · simp [dirExists, h]

/-! ## Role and path facts -/

theorem mem_validTeams_cases (role : String) (h : role ∈ validTeams) :
    role = "dev" ∨ role = "test" ∨ role = "review" ∨ role = "doc" := by
  simpa [validTeams] using h

theorem dotRole_ne_plan (role : String) (h : role ∈ validTeams) :
    "." ++ role ≠ ".plan" := by
  rcases mem_validTeams_cases role h with h | h | h | h <;> subst h <;> decide

theorem roleRequestPath_ne_source (role : String) (h : role ∈ validTeams) :
    roleRequestPath role ≠ sourceRequestPath := by
  simp [roleRequestPath, sourceRequestPath, dotRole_ne_plan role h]

theorem roleResponsePath_ne_planResponse (role : String)
    (h : role ∈ validTeams) : roleResponsePath role ≠ planResponsePath := by
  simp [roleResponsePath, planResponsePath, dotRole_ne_plan role h]

theorem roleRequestPath_ne_planResponse (role : String)
    (h : role ∈ validTeams) : roleRequestPath role ≠ planResponsePath := by
  simp [roleRequestPath, planResponsePath, dotRole_ne_plan role h]

theorem roleRequestPath_ne_roleResponsePath (role role' : String) :
    roleRequestPath role ≠ roleResponsePath role' := by
  simp [roleRequestPath, roleResponsePath]

theorem sourceRequestPath_ne_requestArchive (unit ts role : String) :
    sourceRequestPath ≠ requestArchivePath unit ts role := by
  simp [sourceRequestPath, requestArchivePath]

theorem roleRequestPath_ne_requestArchive (role unit ts role' : String) :
    roleRequestPath role ≠ requestArchivePath unit ts role' := by
  simp [roleRequestPath, requestArchivePath]

theorem roleRequestPath_ne_responseArchive (role unit ts role' : String) :
    roleRequestPath role ≠ responseArchivePath unit ts role' := by
  simp [roleRequestPath, responseArchivePath]

theorem roleResponsePath_ne_responseArchive (role unit ts role' : String) :
    roleResponsePath role ≠ responseArchivePath unit ts role' := by
  simp [roleResponsePath, responseArchivePath]

theorem planResponsePath_ne_responseArchive (unit ts role : String) :
    planResponsePath ≠ responseArchivePath unit ts role := by
  simp [planResponsePath, responseArchivePath]

/-! ## Inversion of the transfer operations -/

/-- Successful `send_request` runs pass every validation gate, and their
mutation trace is exactly: create the role directory, copy to the role's
inbox, copy to the archive, delete the staged source. -/
theorem send_request_success (recipient unit ts : String) (fs : FS)
    (h : (send_request recipient unit ts fs).1 = true) :
    recipient ∈ validTeams ∧ unit ≠ "" ∧ '/' ∉ unit.data ∧ '\\' ∉ unit.data ∧
    ∃ c, fs.readFile sourceRequestPath = some c ∧
      fs.dirExists (lifecycleDirPath unit) = true ∧
      fs.fileExists (requirementsPath unit) = true ∧
      containsSubstr (expectedReference unit) c = true ∧
      (send_request recipient unit ts fs).2 =
        [Ev.mkdir (roleDirPath recipient),
         Ev.write (roleRequestPath recipient) c,
         Ev.write (requestArchivePath unit ts recipient) c,
         Ev.unlink sourceRequestPath] := by
  by_cases h1 : recipient ∈ validTeams
  case neg => simp [send_request, h1] at h
  by_cases h2 : unit = "" ∨ '/' ∈ unit.data ∨ '\\' ∈ unit.data
  case pos => simp [send_request, h1, h2] at h
  rcases hr : fs.readFile sourceRequestPath with _ | c
  · simp [send_request, h1, h2, hr] at h
  cases h3 : fs.dirExists (lifecycleDirPath unit)
  · simp [send_request, h1, h2, hr, h3] at h
  cases h4 : fs.fileExists (requirementsPath unit)
  · simp [send_request, h1, h2, hr, h3, h4] at h
  cases h5 : containsSubstr (expectedReference unit) c
  · simp [send_request, h1, h2, hr, h3, h4, h5] at h
  push_neg at h2
  refine ⟨h1, h2.1, h2.2.1, h2.2.2, c, rfl, rfl, rfl, h5, ?_⟩
  simp [send_request, h1, hr, h3, h4, h5,
    not_or.mpr ⟨h2.1, not_or.mpr ⟨h2.2.1, h2.2.2⟩⟩]

/-- Successful `send_response` runs pass every validation gate, and their
mutation trace is exactly: copy to the planner's inbox, copy to the archive,
delete the staged response, and, when a request file is present in the
role's directory, delete that too. -/
theorem send_response_success (submitter unit ts : String) (fs : FS)
    (h : (send_response submitter unit ts fs).1 = true) :
    submitter ∈ validTeams ∧ unit ≠ "" ∧ '/' ∉ unit.data ∧ '\\' ∉ unit.data ∧
    ∃ c, fs.readFile (roleResponsePath submitter) = some c ∧
      fs.dirExists (lifecycleDirPath unit) = true ∧
      (send_response submitter unit ts fs).2 =
        [Ev.write planResponsePath c,
         Ev.write (responseArchivePath unit ts submitter) c,
         Ev.unlink (roleResponsePath submitter)] ++
        (if fs.fileExists (roleRequestPath submitter) = true then
          [Ev.unlink (roleRequestPath submitter)] else []) := by
  by_cases h1 : submitter ∈ validTeams
  case neg => simp [send_response, h1] at h
  by_cases h2 : unit = "" ∨ '/' ∈ unit.data ∨ '\\' ∈ unit.data
  case pos => simp [send_response, h1, h2] at h
  rcases hr : fs.readFile (roleResponsePath submitter) with _ | c
  · simp [send_response, h1, h2, hr] at h
  cases h3 : fs.dirExists (lifecycleDirPath unit)
  · simp [send_response, h1, h2, hr, h3] at h
  push_neg at h2
  have hmid :
      (fs.applyAll
        [Ev.write planResponsePath c,
         Ev.write (responseArchivePath unit ts submitter) c,
         Ev.unlink (roleResponsePath submitter)]).fileExists
        (roleRequestPath submitter) = fs.fileExists (roleRequestPath submitter) := by
    simp only [FS.applyAll, List.foldl, FS.apply, FS.fileExists]
    rw [FS.readFile_unlink_ne _ _ _ (roleRequestPath_ne_roleResponsePath _ _),
      FS.readFile_writeFile_ne _ _ _ _ (roleRequestPath_ne_responseArchive _ _ _ _),
      FS.readFile_writeFile_ne _ _ _ _ (roleRequestPath_ne_planResponse submitter h1)]
  refine ⟨h1, h2.1, h2.2.1, h2.2.2, c, rfl, rfl, ?_⟩
  cases h6 : fs.fileExists (roleRequestPath submitter) <;>
    simp [send_response, h1, hr, h3, hmid, h6,
      not_or.mpr ⟨h2.1, not_or.mpr ⟨h2.2.1, h2.2.2⟩⟩]

/-- Final state of a successful `send_request`, given its trace. -/
theorem send_request_run_final (role unit ts : String) (fs : FS) (c : String)
    (hev : (send_request role unit ts fs).2 =
      [Ev.mkdir (roleDirPath role), Ev.write (roleRequestPath role) c,
       Ev.write (requestArchivePath unit ts role) c,
       Ev.unlink sourceRequestPath]) :
    (send_request_run role unit ts fs).2 =
      (((fs.mkdir (roleDirPath role)).writeFile (roleRequestPath role) c).writeFile
        (requestArchivePath unit ts role) c).unlink sourceRequestPath := by
  simp [send_request_run, hev, FS.applyAll, List.foldl, FS.apply]

/-- Final state of a successful `send_response` with no pending request to
clean up. -/
theorem send_response_run_final_base (role unit ts : String) (fs : FS) (c : String)
    (hev : (send_response role unit ts fs).2 =
      [Ev.write planResponsePath c, Ev.write (responseArchivePath unit ts role) c,
       Ev.unlink (roleResponsePath role)]) :
    (send_response_run role unit ts fs).2 =
      ((fs.writeFile planResponsePath c).writeFile
        (responseArchivePath unit ts role) c).unlink (roleResponsePath role) := by
  simp [send_response_run, hev, FS.applyAll, List.foldl, FS.apply]

/-- Final state of a successful `send_response` that also removed the
pending request from the role's directory. -/
theorem send_response_run_final_cleanup (role unit ts : String) (fs : FS) (c : String)
    (hev : (send_response role unit ts fs).2 =
      [Ev.write planResponsePath c, Ev.write (responseArchivePath unit ts role) c,
       Ev.unlink (roleResponsePath role), Ev.unlink (roleRequestPath role)]) :
    (send_response_run role unit ts fs).2 =
      (((fs.writeFile planResponsePath c).writeFile
        (responseArchivePath unit ts role) c).unlink
        (roleResponsePath role)).unlink (roleRequestPath role) := by
  simp [send_response_run, hev, FS.applyAll, List.foldl, FS.apply]

/-! ## The claims -/

/-- Claim C1: after every successful run of `send_request(role, unit)`, the
staged request `.plan/request.md` no longer exists, a file with identical
content exists at `.<role>/request.md`, and a file with identical content
exists under `.lifecycle/<unit>/` whose name matches
`*_request_to_<role>.md`. -/
theorem C1_send_request_success_effects (role unit ts : String) (fs : FS)
    (h : (send_request role unit ts fs).1 = true) :
    (send_request_run role unit ts fs).2.fileExists sourceRequestPath = false ∧
    ∃ c, fs.readFile sourceRequestPath = some c ∧
      (send_request_run role unit ts fs).2.readFile (roleRequestPath role) = some c ∧
      ∃ name, (∃ stem, name = stem ++ "_request_to_" ++ role ++ ".md") ∧
        (send_request_run role unit ts fs).2.readFile [".lifecycle", unit, name] = some c := by
  obtain ⟨h1, -, -, -, c, hr, -, -, -, hev⟩ := send_request_success role unit ts fs h
  have hfs' := send_request_run_final role unit ts fs c hev
  refine ⟨?_, c, hr, ?_, requestArchiveName ts role, ⟨ts, by simp [requestArchiveName]⟩, ?_⟩
  · simp [hfs', FS.fileExists, FS.readFile_unlink_self]
  · rw [hfs', FS.readFile_unlink_ne _ _ _ (roleRequestPath_ne_source role h1),
      FS.readFile_writeFile_ne _ _ _ _ (roleRequestPath_ne_requestArchive role unit ts role),
      FS.readFile_writeFile_self]
  · show (send_request_run role unit ts fs).2.readFile (requestArchivePath unit ts role) = some c
    rw [hfs', FS.readFile_unlink_ne _ _ _ (sourceRequestPath_ne_requestArchive unit ts role).symm,
      FS.readFile_writeFile_self]

/-- Witness for C1 at a concrete successful run. -/
theorem C1_send_request_success_effects_witness :
    (send_request "dev" "demo" tsA fsReq).1 = true ∧
    ((send_request_run "dev" "demo" tsA fsReq).2.fileExists sourceRequestPath = false ∧
     ∃ c, fsReq.readFile sourceRequestPath = some c ∧
       (send_request_run "dev" "demo" tsA fsReq).2.readFile (roleRequestPath "dev") = some c ∧
       ∃ name, (∃ stem, name = stem ++ "_request_to_" ++ "dev" ++ ".md") ∧
         (send_request_run "dev" "demo" tsA fsReq).2.readFile [".lifecycle", "demo", name] = some c) :=
  ⟨by decide, C1_send_request_success_effects "dev" "demo" tsA fsReq (by decide)⟩

/-- Claim C2: after every successful run of `send_response(role, unit)`,
`.<role>/response.md` no longer exists, `.plan/response.md` holds content
identical to the staged response, an archive file matching
`*_response_from_<role>.md` exists under `.lifecycle/<unit>/`, and if
`.<role>/request.md` existed before the run it no longer exists. -/
theorem C2_send_response_success_effects (role unit ts : String) (fs : FS)
    (h : (send_response role unit ts fs).1 = true) :
    (send_response_run role unit ts fs).2.fileExists (roleResponsePath role) = false ∧
    (∃ c, fs.readFile (roleResponsePath role) = some c ∧
      (send_response_run role unit ts fs).2.readFile planResponsePath = some c ∧
      ∃ name, (∃ stem, name = stem ++ "_response_from_" ++ role ++ ".md") ∧
        (send_response_run role unit ts fs).2.readFile [".lifecycle", unit, name] = some c) ∧
    (fs.fileExists (roleRequestPath role) = true →
      (send_response_run role unit ts fs).2.fileExists (roleRequestPath role) = false) := by
  obtain ⟨h1, -, -, -, c, hr, -, hev⟩ := send_response_success role unit ts fs h
  cases h6 : fs.fileExists (roleRequestPath role)
  · simp only [h6, Bool.false_eq_true, if_false, List.append_nil] at hev
    have hfs' := send_response_run_final_base role unit ts fs c hev
    refine ⟨?_, ⟨c, hr, ?_, responseArchiveName ts role,
      ⟨ts, by simp [responseArchiveName]⟩, ?_⟩, ?_⟩
    · simp [hfs', FS.fileExists, FS.readFile_unlink_self]
    · rw [hfs',
        FS.readFile_unlink_ne _ _ _ (roleResponsePath_ne_planResponse role h1).symm,
        FS.readFile_writeFile_ne _ _ _ _ (planResponsePath_ne_responseArchive unit ts role),
        FS.readFile_writeFile_self]
    · show (send_response_run role unit ts fs).2.readFile
        (responseArchivePath unit ts role) = some c
      rw [hfs',
        FS.readFile_unlink_ne _ _ _ (roleResponsePath_ne_responseArchive role unit ts role).symm,
        FS.readFile_writeFile_self]
    · intro h'; cases h'
  · simp only [h6, if_true] at hev
    have hev' : (send_response role unit ts fs).2 =
        [Ev.write planResponsePath c, Ev.write (responseArchivePath unit ts role) c,
         Ev.unlink (roleResponsePath role), Ev.unlink (roleRequestPath role)] := by
      simpa using hev
    have hfs' := send_response_run_final_cleanup role unit ts fs c hev'
    refine ⟨?_, ⟨c, hr, ?_, responseArchiveName ts role,
      ⟨ts, by simp [responseArchiveName]⟩, ?_⟩, ?_⟩
    · simp only [hfs', FS.fileExists]
      rw [FS.readFile_unlink_ne _ _ _ (roleRequestPath_ne_roleResponsePath role role).symm]
      simp [FS.readFile_unlink_self]
    · rw [hfs',
        FS.readFile_unlink_ne _ _ _ (roleRequestPath_ne_planResponse role h1).symm,
        FS.readFile_unlink_ne _ _ _ (roleResponsePath_ne_planResponse role h1).symm,
        FS.readFile_writeFile_ne _ _ _ _ (planResponsePath_ne_responseArchive unit ts role),
        FS.readFile_writeFile_self]
    · show (send_response_run role unit ts fs).2.readFile
        (responseArchivePath unit ts role) = some c
      rw [hfs',
        FS.readFile_unlink_ne _ _ _ (roleRequestPath_ne_responseArchive role unit ts role).symm,
        FS.readFile_unlink_ne _ _ _ (roleResponsePath_ne_responseArchive role unit ts role).symm,
        FS.readFile_writeFile_self]
    · intro _
      simp [hfs', FS.fileExists, FS.readFile_unlink_self]

/-- Witness for C2 at a concrete successful run. -/
theorem C2_send_response_success_effects_witness :
    (send_response "dev" "demo" tsA fsResp).1 = true ∧
    ((send_response_run "dev" "demo" tsA fsResp).2.fileExists (roleResponsePath "dev") = false ∧
     (∃ c, fsResp.readFile (roleResponsePath "dev") = some c ∧
       (send_response_run "dev" "demo" tsA fsResp).2.readFile planResponsePath = some c ∧
       ∃ name, (∃ stem, name = stem ++ "_response_from_" ++ "dev" ++ ".md") ∧
         (send_response_run "dev" "demo" tsA fsResp).2.readFile [".lifecycle", "demo", name] = some c) ∧
     (fsResp.fileExists (roleRequestPath "dev") = true →
       (send_response_run "dev" "demo" tsA fsResp).2.fileExists (roleRequestPath "dev") = false)) :=
  ⟨by decide, C2_send_response_success_effects "dev" "demo" tsA fsResp (by decide)⟩

/-- Claim C3: for every role outside the four valid team names, and for
every unit name that is empty or contains a path separator, both transfer
operations return failure and leave the filesystem exactly as before. -/
theorem C3_invalid_arguments_no_effect (role unit ts : String) (fs : FS)
    (h : role ∉ validTeams ∨ unit = "" ∨ '/' ∈ unit.data ∨ '\\' ∈ unit.data) :
    send_request_run role unit ts fs = (false, fs) ∧
    send_response_run role unit ts fs = (false, fs) := by
  by_cases h1 : role ∈ validTeams
  · have h2 : unit = "" ∨ '/' ∈ unit.data ∨ '\\' ∈ unit.data :=
      h.resolve_left (not_not_intro h1)
    constructor <;>
      simp [send_request_run, send_request, send_response_run, send_response,
        h1, h2, FS.applyAll]
  · constructor <;>
      simp [send_request_run, send_request, send_response_run, send_response,
        h1, FS.applyAll]

/-- Witness for C3 at a concrete invalid role. -/
theorem C3_invalid_arguments_no_effect_witness :
    ("boss" ∉ validTeams ∨ "demo" = "" ∨ '/' ∈ "demo".data ∨ '\\' ∈ "demo".data) ∧
    (send_request_run "boss" "demo" tsA fsReq = (false, fsReq) ∧
     send_response_run "boss" "demo" tsA fsReq = (false, fsReq)) :=
  ⟨by decide, C3_invalid_arguments_no_effect "boss" "demo" tsA fsReq (by decide)⟩

/-- Claim C4: `send_request(role, unit)` returns failure with no filesystem
mutation whenever the staged request text does not contain the exact
substring `.lifecycle/<unit>/requirements.md`. -/
theorem C4_missing_reference_fails (role unit ts : String) (fs : FS) (c : String)
    (hc : fs.readFile sourceRequestPath = some c)
    (hmiss : containsSubstr (expectedReference unit) c = false) :
    send_request_run role unit ts fs = (false, fs) := by
  by_cases h1 : role ∈ validTeams
  case neg => simp [send_request_run, send_request, h1, FS.applyAll]
  by_cases h2 : unit = "" ∨ '/' ∈ unit.data ∨ '\\' ∈ unit.data
  case pos => simp [send_request_run, send_request, h1, h2, FS.applyAll]
  cases h3 : fs.dirExists (lifecycleDirPath unit)
  · simp [send_request_run, send_request, h1, h2, hc, h3, FS.applyAll]
  cases h4 : fs.fileExists (requirementsPath unit)
  · simp [send_request_run, send_request, h1, h2, hc, h3, h4, FS.applyAll]
  · simp [send_request_run, send_request, h1, h2, hc, h3, h4, hmiss, FS.applyAll]

/-- Witness for C4: a staged request that references the wrong unit. -/
theorem C4_missing_reference_fails_witness :
    fsReq.readFile sourceRequestPath = some demoRequestText ∧
    containsSubstr (expectedReference "other") demoRequestText = false ∧
    send_request_run "dev" "other" tsA fsReq = (false, fsReq) :=
  ⟨by decide, by decide,
    C4_missing_reference_fails "dev" "other" tsA fsReq demoRequestText
      (by decide) (by decide)⟩

/-- Claim C5: `send_request(role, unit)` returns failure with no filesystem
mutation whenever `.lifecycle/<unit>/requirements.md` does not exist, even
when the staged request file exists and is well-formed. -/
theorem C5_missing_requirements_fails (role unit ts : String) (fs : FS)
    (hreq : fs.fileExists (requirementsPath unit) = false) :
    send_request_run role unit ts fs = (false, fs) := by
  by_cases h1 : role ∈ validTeams
  case neg => simp [send_request_run, send_request, h1, FS.applyAll]
  by_cases h2 : unit = "" ∨ '/' ∈ unit.data ∨ '\\' ∈ unit.data
  case pos => simp [send_request_run, send_request, h1, h2, FS.applyAll]
  rcases hc : fs.readFile sourceRequestPath with _ | c
  · simp [send_request_run, send_request, h1, h2, hc, FS.applyAll]
  cases h3 : fs.dirExists (lifecycleDirPath unit)
  · simp [send_request_run, send_request, h1, h2, hc, h3, FS.applyAll]
  · simp [send_request_run, send_request, h1, h2, hc, h3, hreq, FS.applyAll]

/-- Witness for C5: the `demo` unit of `fsResp` has no `requirements.md`,
while a staged request exists. -/
theorem C5_missing_requirements_fails_witness :
    fsResp.fileExists (requirementsPath "demo") = false ∧
    send_request_run "dev" "demo" tsA fsResp = (false, fsResp) :=
  ⟨by decide, C5_missing_requirements_fails "dev" "demo" tsA fsResp (by decide)⟩

/-- Claim C6: `send_response` does not require a requirements artifact: with
a valid role, a valid unit name, a staged response file and the lifecycle
unit directory present but `.lifecycle/<unit>/requirements.md` absent,
`send_response` succeeds (asymmetry with `send_request`). -/
theorem C6_send_response_no_requirements_gate (role unit ts : String) (fs : FS)
    (h1 : role ∈ validTeams) (h2 : unit ≠ "") (h3 : '/' ∉ unit.data)
    (h4 : '\\' ∉ unit.data)
    (h5 : fs.fileExists (roleResponsePath role) = true)
    (h6 : fs.dirExists (lifecycleDirPath unit) = true)
    (_h7 : fs.fileExists (requirementsPath unit) = false) :
    (send_response role unit ts fs).1 = true := by
  rcases hc : fs.readFile (roleResponsePath role) with _ | c
  · rw [FS.fileExists, hc] at h5; cases h5
  · simp only [send_response, h1, not_true_eq_false, if_false,
      not_or.mpr ⟨h2, not_or.mpr ⟨h3, h4⟩⟩, hc, h6, Bool.true_eq_false]
    split <;> rfl

/-- Witness for C6 at a concrete state lacking `requirements.md`. -/
theorem C6_send_response_no_requirements_gate_witness :
    "dev" ∈ validTeams ∧ "demo" ≠ "" ∧ '/' ∉ "demo".data ∧ '\\' ∉ "demo".data ∧
    fsResp.fileExists (roleResponsePath "dev") = true ∧
    fsResp.dirExists (lifecycleDirPath "demo") = true ∧
    fsResp.fileExists (requirementsPath "demo") = false ∧
    (send_response "dev" "demo" tsA fsResp).1 = true :=
  ⟨by decide, by decide, by decide, by decide, by decide, by decide, by decide,
    C6_send_response_no_requirements_gate "dev" "demo" tsA fsResp (by decide)
      (by decide) (by decide) (by decide) (by decide) (by decide) (by decide)⟩

/-- Every `send_request` trace is either empty (failure) or the exact
four-event success trace, in which case both arguments passed validation. -/
theorem send_request_events_shape (role unit ts : String) (fs : FS) :
    (send_request role unit ts fs).2 = [] ∨
    (role ∈ validTeams ∧ unit ≠ "" ∧ '/' ∉ unit.data ∧ '\\' ∉ unit.data ∧
      ∃ c, (send_request role unit ts fs).2 =
        [Ev.mkdir (roleDirPath role), Ev.write (roleRequestPath role) c,
         Ev.write (requestArchivePath unit ts role) c,
         Ev.unlink sourceRequestPath]) := by
  by_cases h1 : role ∈ validTeams
  case neg => left; simp [send_request, h1]
  by_cases h2 : unit = "" ∨ '/' ∈ unit.data ∨ '\\' ∈ unit.data
  case pos => left; simp [send_request, h1, h2]
  rcases hc : fs.readFile sourceRequestPath with _ | c
  · left; simp [send_request, h1, h2, hc]
  cases h3 : fs.dirExists (lifecycleDirPath unit)
  · left; simp [send_request, h1, h2, hc, h3]
  cases h4 : fs.fileExists (requirementsPath unit)
  · left; simp [send_request, h1, h2, hc, h3, h4]
  cases h5 : containsSubstr (expectedReference unit) c
  · left; simp [send_request, h1, h2, hc, h3, h4, h5]
  · push_neg at h2
    exact Or.inr ⟨h1, h2.1, h2.2.1, h2.2.2, c,
      by simp [send_request, h1, hc, h3, h4, h5,
        not_or.mpr ⟨h2.1, not_or.mpr ⟨h2.2.1, h2.2.2⟩⟩]⟩

/-- Every `send_response` trace is empty (failure) or one of the two
success traces (with or without the request-file cleanup), in which case
both arguments passed validation. -/
theorem send_response_events_shape (role unit ts : String) (fs : FS) :
    (send_response role unit ts fs).2 = [] ∨
    (role ∈ validTeams ∧ unit ≠ "" ∧ '/' ∉ unit.data ∧ '\\' ∉ unit.data ∧
      ∃ c, fs.readFile (roleResponsePath role) = some c ∧
        ((send_response role unit ts fs).2 =
          [Ev.write planResponsePath c,
           Ev.write (responseArchivePath unit ts role) c,
           Ev.unlink (roleResponsePath role)] ∨
         (send_response role unit ts fs).2 =
          [Ev.write planResponsePath c,
           Ev.write (responseArchivePath unit ts role) c,
           Ev.unlink (roleResponsePath role),
           Ev.unlink (roleRequestPath role)])) := by
  by_cases h1 : role ∈ validTeams
  case neg => left; simp [send_response, h1]
  by_cases h2 : unit = "" ∨ '/' ∈ unit.data ∨ '\\' ∈ unit.data
  case pos => left; simp [send_response, h1, h2]
  rcases hc : fs.readFile (roleResponsePath role) with _ | c
  · left; simp [send_response, h1, h2, hc]
  cases h3 : fs.dirExists (lifecycleDirPath unit)
  · left; simp [send_response, h1, h2, hc, h3]
  · push_neg at h2
    refine Or.inr ⟨h1, h2.1, h2.2.1, h2.2.2, c, rfl, ?_⟩
    have hno := not_or.mpr ⟨h2.1, not_or.mpr ⟨h2.2.1, h2.2.2⟩⟩
    cases h6 : (fs.applyAll
        [Ev.write planResponsePath c,
         Ev.write (responseArchivePath unit ts role) c,
         Ev.unlink (roleResponsePath role)]).fileExists (roleRequestPath role)
    · left; simp [send_response, h1, hc, h3, hno, h6]
    · right; simp [send_response, h1, hc, h3, hno, h6]

/-- Claim C7: in both operations the deletion of the staged source artifact
comes only after both the destination copy and the archive copy: no prefix
of the mutation trace contains the source deletion without already
containing both copies. -/
theorem C7_copy_then_delete_ordering (role unit ts : String) (fs : FS) :
    (∀ n, Ev.unlink sourceRequestPath ∈ (send_request role unit ts fs).2.take n →
      ∃ c, Ev.write (roleRequestPath role) c ∈ (send_request role unit ts fs).2.take n ∧
        Ev.write (requestArchivePath unit ts role) c ∈ (send_request role unit ts fs).2.take n) ∧
    (∀ n, Ev.unlink (roleResponsePath role) ∈ (send_response role unit ts fs).2.take n →
      ∃ c, Ev.write planResponsePath c ∈ (send_response role unit ts fs).2.take n ∧
        Ev.write (responseArchivePath unit ts role) c ∈ (send_response role unit ts fs).2.take n) := by
  constructor
  · intro n hn
    rcases send_request_events_shape role unit ts fs with hev | ⟨-, -, -, -, c, hev⟩
    · rw [hev] at hn; simp at hn
    · rw [hev] at hn ⊢
      match n with
      | 0 => simp at hn
      | 1 => simp [List.take] at hn
      | 2 => simp [List.take] at hn
      | 3 => simp [List.take] at hn
      | (m + 4) =>
        rw [List.take_of_length_le (by simp)] at hn ⊢
        exact ⟨c, by simp, by simp⟩
  · intro n hn
    rcases send_response_events_shape role unit ts fs with hev | ⟨-, -, -, -, c, -, hev | hev⟩
    · rw [hev] at hn; simp at hn
    · rw [hev] at hn ⊢
      match n with
      | 0 => simp at hn
      | 1 => simp [List.take] at hn
      | 2 => simp [List.take] at hn
      | (m + 3) =>
        rw [List.take_of_length_le (by simp)] at hn ⊢
        exact ⟨c, by simp, by simp⟩
    · rw [hev] at hn ⊢
      match n with
      | 0 => simp at hn
      | 1 => simp [List.take] at hn
      | 2 => simp [List.take] at hn
      | 3 =>
        refine ⟨c, ?_, ?_⟩ <;> simp [List.take]
      | (m + 4) =>
        rw [List.take_of_length_le (by simp)] at hn ⊢
        exact ⟨c, by simp, by simp⟩

/-- Witness for C7: the full trace of a concrete successful `send_request`
contains the source deletion, and both copies precede it. -/
theorem C7_copy_then_delete_ordering_witness :
    ∃ c, Ev.write (roleRequestPath "dev") c ∈ (send_request "dev" "demo" tsA fsReq).2.take 4 ∧
      Ev.write (requestArchivePath "demo" tsA "dev") c ∈ (send_request "dev" "demo" tsA fsReq).2.take 4 :=
  (C7_copy_then_delete_ordering "dev" "demo" tsA fsReq).1 4 (by decide)

theorem lifecycle_triple_ne_source (u name : String) :
    ([".lifecycle", u, name] : FPath) ≠ sourceRequestPath := by
  simp [sourceRequestPath]

theorem lifecycle_triple_ne_roleRequest (u name role : String) :
    ([".lifecycle", u, name] : FPath) ≠ roleRequestPath role := by
  simp [roleRequestPath]

theorem lifecycle_triple_ne_roleResponse (u name role : String) :
    ([".lifecycle", u, name] : FPath) ≠ roleResponsePath role := by
  simp [roleResponsePath]

theorem lifecycle_triple_ne_planResponse (u name : String) :
    ([".lifecycle", u, name] : FPath) ≠ planResponsePath := by
  simp [planResponsePath]

/-- Counterexample to claim C8 as stated: two successful `send_request`
transfers for the same unit and role within the same strftime second (the
planner restaging a request in between) silently overwrite the archive
entry written by the first transfer, mutating it. -/
theorem C8_archive_mutation_counterexample :
    (send_request_run "dev" "demo" tsA fsReq).1 = true ∧
    (send_request_run "dev" "demo" tsA fsReq).2.readFile
      (requestArchivePath "demo" tsA "dev") = some demoRequestText ∧
    fsCollide.readFile (requestArchivePath "demo" tsA "dev") = some demoRequestText ∧
    (send_request_run "dev" "demo" tsA fsCollide).1 = true ∧
    (send_request_run "dev" "demo" tsA fsCollide).2.readFile
      (requestArchivePath "demo" tsA "dev") = some restagedRequestText ∧
    demoRequestText ≠ restagedRequestText := by
  refine ⟨by decide, by decide, by decide, by decide, by decide, by decide⟩

/-- Claim C8, amended for the same-second timestamp collision: every run of
either operation leaves every file under `.lifecycle/` unchanged except the
single archive path named by that run's timestamp, direction and role, and
a successful run writes the staged content to exactly that archive path.
An already-written archive entry is thus never deleted, and is mutated only
when a later transfer of the same direction, unit, and role reuses the same
timestamp (a same-second collision overwrites it). -/
theorem C8_archive_append_only_amended (role unit ts : String) (fs : FS) :
    (∀ u name, [".lifecycle", u, name] ≠ requestArchivePath unit ts role →
      (send_request_run role unit ts fs).2.readFile [".lifecycle", u, name] =
        fs.readFile [".lifecycle", u, name]) ∧
    ((send_request role unit ts fs).1 = true →
      ∃ c, fs.readFile sourceRequestPath = some c ∧
        (send_request_run role unit ts fs).2.readFile
          (requestArchivePath unit ts role) = some c) ∧
    (∀ u name, [".lifecycle", u, name] ≠ responseArchivePath unit ts role →
      (send_response_run role unit ts fs).2.readFile [".lifecycle", u, name] =
        fs.readFile [".lifecycle", u, name]) ∧
    ((send_response role unit ts fs).1 = true →
      ∃ c, fs.readFile (roleResponsePath role) = some c ∧
        (send_response_run role unit ts fs).2.readFile
          (responseArchivePath unit ts role) = some c) := by
  refine ⟨?_, ?_, ?_, ?_⟩
  · intro u name hne
    rcases send_request_events_shape role unit ts fs with hev | ⟨-, -, -, -, c, hev⟩
    · simp [send_request_run, hev, FS.applyAll]
    · rw [send_request_run_final role unit ts fs c hev,
        FS.readFile_unlink_ne _ _ _ (lifecycle_triple_ne_source u name),
        FS.readFile_writeFile_ne _ _ _ _ hne,
        FS.readFile_writeFile_ne _ _ _ _ (lifecycle_triple_ne_roleRequest u name role),
        FS.readFile_mkdir]
  · intro h
    obtain ⟨-, -, -, -, c, hr, -, -, -, hev⟩ := send_request_success role unit ts fs h
    refine ⟨c, hr, ?_⟩
    rw [send_request_run_final role unit ts fs c hev,
      FS.readFile_unlink_ne _ _ _ (sourceRequestPath_ne_requestArchive unit ts role).symm,
      FS.readFile_writeFile_self]
  · intro u name hne
    rcases send_response_events_shape role unit ts fs with hev | ⟨-, -, -, -, c, -, hev | hev⟩
    · simp [send_response_run, hev, FS.applyAll]
    · rw [send_response_run_final_base role unit ts fs c hev,
        FS.readFile_unlink_ne _ _ _ (lifecycle_triple_ne_roleResponse u name role),
        FS.readFile_writeFile_ne _ _ _ _ hne,
        FS.readFile_writeFile_ne _ _ _ _ (lifecycle_triple_ne_planResponse u name)]
    · rw [send_response_run_final_cleanup role unit ts fs c hev,
        FS.readFile_unlink_ne _ _ _ (lifecycle_triple_ne_roleRequest u name role),
        FS.readFile_unlink_ne _ _ _ (lifecycle_triple_ne_roleResponse u name role),
        FS.readFile_writeFile_ne _ _ _ _ hne,
        FS.readFile_writeFile_ne _ _ _ _ (lifecycle_triple_ne_planResponse u name)]
  · intro h
    obtain ⟨h1, -, -, -, c, hr, -, hev⟩ := send_response_success role unit ts fs h
    refine ⟨c, hr, ?_⟩
    cases h6 : fs.fileExists (roleRequestPath role)
    · simp only [h6, Bool.false_eq_true, if_false, List.append_nil] at hev
      rw [send_response_run_final_base role unit ts fs c hev,
        FS.readFile_unlink_ne _ _ _ (roleResponsePath_ne_responseArchive role unit ts role).symm,
        FS.readFile_writeFile_self]
    · simp only [h6, if_true] at hev
      have hev' : (send_response role unit ts fs).2 =
          [Ev.write planResponsePath c, Ev.write (responseArchivePath unit ts role) c,
           Ev.unlink (roleResponsePath role), Ev.unlink (roleRequestPath role)] := by
        simpa using hev
      rw [send_response_run_final_cleanup role unit ts fs c hev',
        FS.readFile_unlink_ne _ _ _ (roleRequestPath_ne_responseArchive role unit ts role).symm,
        FS.readFile_unlink_ne _ _ _ (roleResponsePath_ne_responseArchive role unit ts role).symm,
        FS.readFile_writeFile_self]

/-- Witness for the amended C8 at a concrete run: `requirements.md` in the
archive folder is untouched, and the one archive entry holds the staged
content. -/
theorem C8_archive_append_only_amended_witness :
    (send_request_run "dev" "demo" tsA fsReq).2.readFile
        [".lifecycle", "demo", "requirements.md"] =
      fsReq.readFile [".lifecycle", "demo", "requirements.md"] ∧
    ∃ c, fsReq.readFile sourceRequestPath = some c ∧
      (send_request_run "dev" "demo" tsA fsReq).2.readFile
        (requestArchivePath "demo" tsA "dev") = some c :=
  ⟨(C8_archive_append_only_amended "dev" "demo" tsA fsReq).1 "demo"
      "requirements.md" (by decide),
   (C8_archive_append_only_amended "dev" "demo" tsA fsReq).2.1 (by decide)⟩

/-- Claim C9: re-running `send_response(role, unit)` after a successful run,
with no new response staged in between, returns failure and leaves the
filesystem (including the delivered `.plan/response.md` and all archive
entries) exactly unchanged. -/
theorem C9_send_response_retry_fails_cleanly (role unit ts ts' : String) (fs : FS)
    (h : (send_response role unit ts fs).1 = true) :
    send_response_run role unit ts' ((send_response_run role unit ts fs).2) =
      (false, (send_response_run role unit ts fs).2) := by
  obtain ⟨h1, h2a, h2b, h2c, c, hr, -, hev⟩ := send_response_success role unit ts fs h
  have hnone : ((send_response_run role unit ts fs).2).readFile (roleResponsePath role) = none := by
    cases h6 : fs.fileExists (roleRequestPath role)
    · simp only [h6, Bool.false_eq_true, if_false, List.append_nil] at hev
      rw [send_response_run_final_base role unit ts fs c hev]
      exact FS.readFile_unlink_self _ _
    · simp only [h6, if_true] at hev
      have hev' : (send_response role unit ts fs).2 =
          [Ev.write planResponsePath c, Ev.write (responseArchivePath unit ts role) c,
           Ev.unlink (roleResponsePath role), Ev.unlink (roleRequestPath role)] := by
        simpa using hev
      rw [send_response_run_final_cleanup role unit ts fs c hev',
        FS.readFile_unlink_ne _ _ _ (roleRequestPath_ne_roleResponsePath role role).symm]
      exact FS.readFile_unlink_self _ _
  have hval := not_or.mpr ⟨h2a, not_or.mpr ⟨h2b, h2c⟩⟩
  generalize (send_response_run role unit ts fs).2 = fs₁ at hnone ⊢
  simp [send_response_run, send_response, h1, hval, hnone, FS.applyAll]

/-- Witness for C9 at a concrete successful run followed by a retry. -/
theorem C9_send_response_retry_fails_cleanly_witness :
    (send_response "dev" "demo" tsA fsResp).1 = true ∧
    send_response_run "dev" "demo" tsB ((send_response_run "dev" "demo" tsA fsResp).2) =
      (false, (send_response_run "dev" "demo" tsA fsResp).2) :=
  ⟨by decide,
    C9_send_response_retry_fails_cleanly "dev" "demo" tsA tsB fsResp (by decide)⟩

theorem validTeams_role_data (role : String) (h : role ∈ validTeams) :
    '/' ∉ role.data ∧ '\\' ∉ role.data := by
  rcases mem_validTeams_cases role h with h | h | h | h <;> subst h <;>
    exact ⟨by decide, by decide⟩

/-- The request archive file name is a well-formed single path segment and is
neither `..` nor `.`. -/
theorem requestArchiveName_facts (ts role : String)
    (hts1 : '/' ∉ ts.data) (hts2 : '\\' ∉ ts.data)
    (hr1 : '/' ∉ role.data) (hr2 : '\\' ∉ role.data) :
    requestArchiveName ts role ≠ "" ∧ '/' ∉ (requestArchiveName ts role).data ∧
    '\\' ∉ (requestArchiveName ts role).data ∧
    requestArchiveName ts role ≠ ".." ∧ requestArchiveName ts role ≠ "." := by
  have hu : '_' ∈ "_request_to_".data := by decide
  have hdata : (requestArchiveName ts role).data =
      ts.data ++ "_request_to_".data ++ role.data ++ ".md".data := by
    simp [requestArchiveName, String.data_append]
  have hmem : '_' ∈ (requestArchiveName ts role).data := by
    rw [hdata]; simp only [List.mem_append]; tauto
  refine ⟨?_, ?_, ?_, ?_, ?_⟩
  · intro h0; rw [h0] at hmem; exact absurd hmem (by decide)
  · rw [hdata]; simp only [List.mem_append]
    rintro (((h | h) | h) | h)
    exacts [hts1 h, absurd h (by decide), hr1 h, absurd h (by decide)]
  · rw [hdata]; simp only [List.mem_append]
    rintro (((h | h) | h) | h)
    exacts [hts2 h, absurd h (by decide), hr2 h, absurd h (by decide)]
  · intro h0; rw [h0] at hmem; exact absurd hmem (by decide)
  · intro h0; rw [h0] at hmem; exact absurd hmem (by decide)

/-- The response archive file name is a well-formed single path segment and
is neither `..` nor `.`. -/
theorem responseArchiveName_facts (ts role : String)
    (hts1 : '/' ∉ ts.data) (hts2 : '\\' ∉ ts.data)
    (hr1 : '/' ∉ role.data) (hr2 : '\\' ∉ role.data) :
    responseArchiveName ts role ≠ "" ∧ '/' ∉ (responseArchiveName ts role).data ∧
    '\\' ∉ (responseArchiveName ts role).data ∧
    responseArchiveName ts role ≠ ".." ∧ responseArchiveName ts role ≠ "." := by
  have hu : '_' ∈ "_response_from_".data := by decide
  have hdata : (responseArchiveName ts role).data =
      ts.data ++ "_response_from_".data ++ role.data ++ ".md".data := by
    simp [responseArchiveName, String.data_append]
  have hmem : '_' ∈ (responseArchiveName ts role).data := by
    rw [hdata]; simp only [List.mem_append]; tauto
  refine ⟨?_, ?_, ?_, ?_, ?_⟩
  · intro h0; rw [h0] at hmem; exact absurd hmem (by decide)
  · rw [hdata]; simp only [List.mem_append]
    rintro (((h | h) | h) | h)
    exacts [hts1 h, absurd h (by decide), hr1 h, absurd h (by decide)]
  · rw [hdata]; simp only [List.mem_append]
    rintro (((h | h) | h) | h)
    exacts [hts2 h, absurd h (by decide), hr2 h, absurd h (by decide)]
  · intro h0; rw [h0] at hmem; exact absurd hmem (by decide)
  · intro h0; rw [h0] at hmem; exact absurd hmem (by decide)

/-- Any `.lifecycle/<unit>/<name>` path with validated `unit` and a
well-formed `name` stays inside the project root. -/
theorem pathInRoot_lifecycle_triple (unit name : String)
    (hu1 : unit ≠ "") (hu2 : '/' ∉ unit.data) (hu3 : '\\' ∉ unit.data)
    (hn1 : name ≠ "") (hn2 : '/' ∉ name.data) (hn3 : '\\' ∉ name.data)
    (hn4 : name ≠ "..") (hn5 : name ≠ ".") :
    pathInRoot [".lifecycle", unit, name] = true := by
  by_cases e1 : unit = ".."
  · subst e1
    simp [pathInRoot, staysInRoot, segmentOk, hn1, hn2, hn3, hn4, hn5]
  by_cases e2 : unit = "."
  · subst e2
    simp [pathInRoot, staysInRoot, segmentOk, hn1, hn2, hn3, hn4, hn5]
  · simp [pathInRoot, staysInRoot, segmentOk, hu1, hu2, hu3, e1, e2,
      hn1, hn2, hn3, hn4, hn5]

theorem pathInRoot_roleDir (role : String) (h : role ∈ validTeams) :
    pathInRoot (roleDirPath role) = true := by
  rcases mem_validTeams_cases role h with h | h | h | h <;> subst h <;> decide

theorem pathInRoot_roleRequest (role : String) (h : role ∈ validTeams) :
    pathInRoot (roleRequestPath role) = true := by
  rcases mem_validTeams_cases role h with h | h | h | h <;> subst h <;> decide

theorem pathInRoot_roleResponse (role : String) (h : role ∈ validTeams) :
    pathInRoot (roleResponsePath role) = true := by
  rcases mem_validTeams_cases role h with h | h | h | h <;> subst h <;> decide

theorem pathInRoot_source : pathInRoot sourceRequestPath = true := by decide

theorem pathInRoot_planResponse : pathInRoot planResponsePath = true := by decide

/-- Claim C10: whenever either operation performs a filesystem write,
directory creation, or deletion, the affected path lies inside the project
root: no argument can direct an effect outside the workspace tree, so
everything outside the project root is unchanged by every invocation.  The
timestamp argument stands for strftime output and accordingly is assumed
free of path separators. -/
theorem C10_effects_confined_to_project_root (role unit ts : String) (fs : FS)
    (hts1 : '/' ∉ ts.data) (hts2 : '\\' ∉ ts.data) :
    (∀ e ∈ (send_request role unit ts fs).2, pathInRoot e.path = true) ∧
    (∀ e ∈ (send_response role unit ts fs).2, pathInRoot e.path = true) := by
  constructor
  · intro e he
    rcases send_request_events_shape role unit ts fs with hev | ⟨h1, hu1, hu2, hu3, c, hev⟩
    · simp [hev] at he
    · obtain ⟨hrd1, hrd2⟩ := validTeams_role_data role h1
      obtain ⟨f1, f2, f3, f4, f5⟩ := requestArchiveName_facts ts role hts1 hts2 hrd1 hrd2
      rw [hev] at he
      simp only [List.mem_cons, List.not_mem_nil, or_false] at he
      rcases he with rfl | rfl | rfl | rfl
      · simpa [Ev.path] using pathInRoot_roleDir role h1
      · simpa [Ev.path] using pathInRoot_roleRequest role h1
      · simpa [Ev.path, requestArchivePath] using
          pathInRoot_lifecycle_triple unit (requestArchiveName ts role)
            hu1 hu2 hu3 f1 f2 f3 f4 f5
      · simpa [Ev.path] using pathInRoot_source
  · intro e he
    rcases send_response_events_shape role unit ts fs with hev | ⟨h1, hu1, hu2, hu3, c, -, hev | hev⟩
    · simp [hev] at he
    · obtain ⟨hrd1, hrd2⟩ := validTeams_role_data role h1
      obtain ⟨f1, f2, f3, f4, f5⟩ := responseArchiveName_facts ts role hts1 hts2 hrd1 hrd2
      rw [hev] at he
      simp only [List.mem_cons, List.not_mem_nil, or_false] at he
      rcases he with rfl | rfl | rfl
      · simpa [Ev.path] using pathInRoot_planResponse
      · simpa [Ev.path, responseArchivePath] using
          pathInRoot_lifecycle_triple unit (responseArchiveName ts role)
            hu1 hu2 hu3 f1 f2 f3 f4 f5
      · simpa [Ev.path] using pathInRoot_roleResponse role h1
    · obtain ⟨hrd1, hrd2⟩ := validTeams_role_data role h1
      obtain ⟨f1, f2, f3, f4, f5⟩ := responseArchiveName_facts ts role hts1 hts2 hrd1 hrd2
      rw [hev] at he
      simp only [List.mem_cons, List.not_mem_nil, or_false] at he
      rcases he with rfl | rfl | rfl | rfl
      · simpa [Ev.path] using pathInRoot_planResponse
      · simpa [Ev.path, responseArchivePath] using
          pathInRoot_lifecycle_triple unit (responseArchiveName ts role)
            hu1 hu2 hu3 f1 f2 f3 f4 f5
      · simpa [Ev.path] using pathInRoot_roleResponse role h1
      · simpa [Ev.path] using pathInRoot_roleRequest role h1

/-- Witness for C10 at a concrete run: a strftime-shaped timestamp has no
separators, and every event of the concrete trace stays inside the root. -/
theorem C10_effects_confined_to_project_root_witness :
    ('/' ∉ tsA.data ∧ '\\' ∉ tsA.data) ∧
    ((∀ e ∈ (send_request "dev" "demo" tsA fsReq).2, pathInRoot e.path = true) ∧
     (∀ e ∈ (send_response "dev" "demo" tsA fsReq).2, pathInRoot e.path = true)) :=
  ⟨⟨by decide, by decide⟩,
    C10_effects_confined_to_project_root "dev" "demo" tsA fsReq (by decide) (by decide)⟩
